import Mathlib

/-!
Verification development for the shared-medium network simulation
(`ns/port/wire.py`, `ns/port/slot.py`).

Times are modelled as rationals (the Python code computes with floats, but
every claim under study is about exact comparisons and additions of the
constants 0, 1.5, 1e-9 and the drawn durations, so exact arithmetic is the
faithful reading).  The two seeded `numpy.random.RandomState` streams of the
loss-period generator are modelled as abstract draw streams `ℕ → ℚ`
(`rng.exponential(mean)` produces a nonnegative draw each call; the stream is
a pure function of the seed).  The simpy event loop is modelled by making the
suspension points explicit: each component function describes the state
change of one resumption of the corresponding Python generator.
-/

/-- State of `LossPeriodGenerator` (wire.py lines 153-208): the two seeded
draw streams with their positions, and the current good interval
`[good_low, good_high)`. -/
structure LossPeriodGenerator where
  badDraws : ℕ → ℚ
  goodDraws : ℕ → ℚ
  bIdx : ℕ
  gIdx : ℕ
  good_low : ℚ
  good_high : ℚ

/-- Models `LossPeriodGenerator.__init__` (wire.py lines 168-174): `good_low = 0`,
`good_high = good_low + rng_g.exponential(mean_g)` consumes the first good
draw. -/
def mkLossPeriodGenerator (bd gd : ℕ → ℚ) : LossPeriodGenerator :=
  { badDraws := bd, goodDraws := gd, bIdx := 0, gIdx := 1,
    good_low := 0, good_high := 0 + gd 0 }

/-- One iteration of the `while timestamp >= good_high` loop body
(wire.py lines 196-197): `good_low = good_high + rng_b.exponential(mean_b)`;
`good_high = good_low + rng_g.exponential(mean_g)`. -/
def lpgStep (s : LossPeriodGenerator) : LossPeriodGenerator :=
  let low := s.good_high + s.badDraws s.bIdx
  let high := low + s.goodDraws s.gIdx
  { s with good_low := low, good_high := high, bIdx := s.bIdx + 1, gIdx := s.gIdx + 1 }

/-- The `while timestamp >= good_high` loop (wire.py lines 194-198),
executed with explicit fuel (the Python loop is unbounded; with the
almost-surely positive exponential draws it terminates, which in the
embedding corresponds to the fuel sufficing). -/
def lpgAdvance : ℕ → LossPeriodGenerator → ℚ → LossPeriodGenerator
  | 0, s, _ => s
  | n + 1, s, ts => if s.good_high ≤ ts then lpgAdvance n (lpgStep s) ts else s

/-- Models `LossPeriodGenerator.is_good_period(timestamp, begin_transmission)`
(wire.py lines 176-208): advance past `timestamp`, then return
`good_low <= timestamp < good_high and good_low <= begin_transmission < good_high`.
Returns the mutated generator together with the boolean. -/
def is_good_period (fuel : ℕ) (s : LossPeriodGenerator) (timestamp begin_transmission : ℚ) :
    LossPeriodGenerator × Bool :=
  let t := lpgAdvance fuel s timestamp
  (t, decide (t.good_low ≤ timestamp ∧ timestamp < t.good_high ∧
              t.good_low ≤ begin_transmission ∧ begin_transmission < t.good_high))

/-- A packet as the wire and slot see it (ns/packet/packet.py):
`current_time` is set by `Wire.put` to the arrival instant, and
`begin_transmission` is stamped by `Slot.schedule_slots`. -/
structure WPacket where
  packet_id : ℕ
  flow_id : ℕ
  current_time : ℚ
  begin_transmission : ℚ
  deriving DecidableEq

/-- The runtime failures the wire's resolution loop can raise:
`indexError` models `self.store.items[0]` on an empty store (wire.py line 75),
`attributeError` models `self.out.put(packet)` with `out` still `None`
(wire.py line 133, `out` defaults to `None` at line 40). -/
inductive WireError where
  | indexError
  | attributeError
  deriving DecidableEq

/-- State of a `Wire` (wire.py lines 29-52) plus the simulation clock `now`
and a log `delivered` of the packets handed to `out.put` with their delivery
instants.  `lossDistNone` records whether the wire was constructed with the
default `loss_dist=None`; `hasOut` records whether `self.out` has been
assigned. -/
structure WireState where
  store : List WPacket
  packets_rec : ℕ
  packets_dropped : ℕ
  lpg : LossPeriodGenerator
  now : ℚ
  lossDistNone : Bool
  hasOut : Bool
  delivered : List (WPacket × ℚ)

/-- Models `Wire.__init__` (wire.py lines 29-52): empty store, zero counters,
`out = None`, a fresh loss-period generator; no argument is validated and no
exception is raised. -/
def mkWire (lpg : LossPeriodGenerator) (lossDistNone : Bool) : WireState :=
  { store := [], packets_rec := 0, packets_dropped := 0, lpg := lpg,
    now := 0, lossDistNone := lossDistNone, hasOut := false, delivered := [] }

/-- Models `Wire.put` (wire.py lines 145-151): count the packet, stamp
`packet.current_time = env.now`, append to the store. -/
def wirePut (p : WPacket) (s : WireState) : WireState :=
  { s with packets_rec := s.packets_rec + 1,
           store := s.store ++ [{ p with current_time := s.now }] }

/-- One iteration of the `while True` loop of `Wire.run` after its leading
timeout (wire.py lines 71-143), entered with the clock at `s.now`:

* line 75: `packet = self.store.items[0]` — `indexError` on an empty store;
* line 76: `self.store.get()` removes that head packet;
* lines 84-87: if packets remain, `colliding_packets` collects those with
  the same `current_time` as the popped packet;
* lines 95-102: on a collision `packets_dropped += 2` (a hard-coded 2) and a
  second `self.store.get()` removes the head of the remaining queue;
* line 104: `if len(colliding_packets) == 0 or len(self.store.items) == 0`
  enters the loss path, which first yields 1.5 time units (line 109);
* line 114: `if self.loss_dist is None or not ...is_good_period(...)` — the
  Python `or` short-circuits, so with `loss_dist=None` the generator is not
  consulted — drop with `packets_dropped += 1`; otherwise compute
  `queued_time = env.now - packet.current_time`, draw `delay`, wait
  `delay - queued_time` when `queued_time < delay`, and hand the packet to
  `self.out.put` (an `attributeError` when `out` is `None`). -/
def wireRunStep (fuel : ℕ) (delay : ℚ) (s : WireState) : Except WireError WireState :=
  match s.store with
  | [] => Except.error WireError.indexError
  | packet :: rest =>
    let colliding := rest.filter (fun q => decide (q.current_time = packet.current_time))
    let store1 := if colliding.isEmpty then rest else rest.tail
    let dropped1 := if colliding.isEmpty then s.packets_dropped else s.packets_dropped + 2
    if colliding.isEmpty || store1.isEmpty then
      let now1 := s.now + 3/2
      if s.lossDistNone then
        Except.ok { s with store := store1, packets_dropped := dropped1 + 1, now := now1 }
      else
        let res := is_good_period fuel s.lpg packet.current_time packet.begin_transmission
        if res.2 then
          let queued := now1 - packet.current_time
          let wait := if queued < delay then delay - queued else 0
          let now2 := now1 + wait
          if s.hasOut then
            Except.ok { s with store := store1, packets_dropped := dropped1, lpg := res.1,
                               now := now2, delivered := s.delivered ++ [(packet, now2)] }
          else
            Except.error WireError.attributeError
        else
          Except.ok { s with store := store1, packets_dropped := dropped1 + 1,
                             lpg := res.1, now := now1 }
    else
      Except.ok { s with store := store1, packets_dropped := dropped1 }

/-- The statistics computation at the end of each resolution cycle
(wire.py lines 136-140): a percentage, guarded so that `packets_rec == 0`
yields 0 rather than a division fault. -/
def loss_rate (s : WireState) : ℚ :=
  if 0 < s.packets_rec then ((s.packets_dropped : ℚ) / (s.packets_rec : ℚ)) * 100 else 0

/-- State of a `Slot` (slot.py lines 8-19): the FIFO buffer and the
configured rate.  The class-level `instances` registry and the
`at_least_two_slots_with_packets` flag are debug instrumentation (they are
only ever printed or returned by an unused static accessor) and are not part
of the packet-flow state. -/
structure SlotState where
  packets_in_slot : List WPacket
  rate : ℚ

/-- Models `Slot.__init__` (slot.py lines 8-19): empty buffer; `rate` is stored
unvalidated and no exception is raised. -/
def mkSlot (rate : ℚ) : SlotState :=
  { packets_in_slot := [], rate := rate }

/-- Models `Slot.put` (slot.py lines 54-57): append to the buffer, emit nothing. -/
def slotPut (p : WPacket) (s : SlotState) : SlotState :=
  { s with packets_in_slot := s.packets_in_slot ++ [p] }

/-- One tick of `Slot.schedule_slots` (slot.py lines 40-52), firing at
instant `now` (the end of the 1.5-long slot window): with an empty buffer
nothing happens; otherwise the oldest packet is popped, and when `rate > 0`
it is stamped `begin_transmission = env.now` and handed to `out.put` after a
further 1.5 transmission wait (so the emission instant is `now + 3/2`); when
`rate ≤ 0` the popped packet is handed on unstamped at `now`.  The result is
the new slot state and the emitted packet, if any, with its emission
instant. -/
def slotTick (now : ℚ) (s : SlotState) : SlotState × Option (WPacket × ℚ) :=
  match s.packets_in_slot with
  | [] => (s, none)
  | p :: rest =>
    if 0 < s.rate then
      ({ s with packets_in_slot := rest },
       some ({ p with begin_transmission := now }, now + 3/2))
    else
      ({ s with packets_in_slot := rest }, some (p, now))

/-- Contents of a simpy store at instant `t`, given the list of
(put-instant, packet) pairs in put order: exactly the packets already put. -/
def storeAt (puts : List (ℚ × WPacket)) (t : ℚ) : List WPacket :=
  (puts.filter (fun q => decide (q.1 ≤ t))).map Prod.snd

/-- The events that can change a wire's state between resolution cycles:
the clock advancing, `Wire.put` being called, the example script assigning
`wire.out`, and a completed resolution cycle. -/
inductive WireEvolve : WireState → WireState → Prop
  | advanceTime (s : WireState) (t : ℚ) (h : s.now ≤ t) :
      WireEvolve s { s with now := t }
  | putPacket (s : WireState) (p : WPacket) :
      WireEvolve s (wirePut p s)
  | setOut (s : WireState) :
      WireEvolve s { s with hasOut := true }
  | resolve (s s' : WireState) (fuel : ℕ) (delay : ℚ) (hd : 0 ≤ delay)
      (h : wireRunStep fuel delay s = Except.ok s') :
      WireEvolve s s'

/-- Reachability of a wire state from a freshly constructed wire. -/
inductive WireReach (init : WireState) : WireState → Prop
  | refl : WireReach init init
  | step {s s' : WireState} : WireReach init s → WireEvolve s s' → WireReach init s'

/-- The sequence of `good_high` values observed across a sequence of
`is_good_period` calls (each call given as the pair
`(timestamp, begin_transmission)`), starting from the initial value. -/
def lpgTrace (fuel : ℕ) : LossPeriodGenerator → List (ℚ × ℚ) → List ℚ
  | s, [] => [s.good_high]
  | s, c :: cs => s.good_high :: lpgTrace fuel (is_good_period fuel s c.1 c.2).1 cs

def c7slot : SlotState := slotPut ⟨1, 0, 0, 0⟩ (mkSlot 1000000)

def c10state : WireState :=
  { store := [⟨1, 0, 5, 5⟩], packets_rec := 1, packets_dropped := 0,
    lpg := mkLossPeriodGenerator (fun _ => 5) (fun _ => 10), now := 5,
    lossDistNone := true, hasOut := false, delivered := [] }

def c1p1 : WPacket := ⟨1, 0, 5, 5⟩

def c1p2 : WPacket := ⟨2, 1, 5, 5⟩

def c1p3 : WPacket := ⟨3, 2, 5, 5⟩

def c1state : WireState :=
  { store := [c1p1, c1p2, c1p3], packets_rec := 3, packets_dropped := 0,
    lpg := mkLossPeriodGenerator (fun _ => 5) (fun _ => 10), now := 5,
    lossDistNone := true, hasOut := false, delivered := [] }

def c1wstate : WireState :=
  { store := [⟨1, 0, 8, 8⟩, ⟨2, 1, 8, 8⟩, ⟨3, 2, 9, 9⟩], packets_rec := 3,
    packets_dropped := 4, lpg := mkLossPeriodGenerator (fun _ => 5) (fun _ => 10),
    now := 8, lossDistNone := true, hasOut := false, delivered := [] }

def c1pair : WireState :=
  { store := [⟨1, 0, 8, 8⟩, ⟨2, 1, 8, 8⟩], packets_rec := 2, packets_dropped := 0,
    lpg := mkLossPeriodGenerator (fun _ => 5) (fun _ => 10), now := 8,
    lossDistNone := true, hasOut := false, delivered := [] }

def c3lpg : LossPeriodGenerator := mkLossPeriodGenerator (fun _ => 7) (fun _ => 100)

def c3state : WireState :=
  { store := [⟨1, 0, 0, 0⟩], packets_rec := 1, packets_dropped := 0, lpg := c3lpg,
    now := 0, lossDistNone := false, hasOut := true, delivered := [] }

def c3out : WireState :=
  { store := [], packets_rec := 1, packets_dropped := 0, lpg := c3lpg,
    now := 2, lossDistNone := false, hasOut := true, delivered := [(⟨1, 0, 0, 0⟩, 2)] }

def c4lpg : LossPeriodGenerator := mkLossPeriodGenerator (fun _ => 7) (fun _ => 100)

def c4state : WireState :=
  { store := [⟨1, 0, 3, 1⟩, ⟨2, 1, 3, 1⟩], packets_rec := 2, packets_dropped := 0,
    lpg := c4lpg, now := 4, lossDistNone := false, hasOut := true, delivered := [] }

def c4out : WireState :=
  { store := [], packets_rec := 2, packets_dropped := 2, lpg := c4lpg,
    now := 4 + 3/2, lossDistNone := false, hasOut := true,
    delivered := [(⟨1, 0, 3, 1⟩, 4 + 3/2)] }

def c8lpg : LossPeriodGenerator := mkLossPeriodGenerator (fun _ => 7) (fun _ => 100)

def c8pkt1 : WPacket := ⟨1, 0, 0, 0⟩

def c8pkt2 : WPacket := ⟨2, 1, 0, 0⟩

def c8slotA : SlotState := slotPut c8pkt1 (mkSlot 1000000)

def c8slotB : SlotState := slotPut c8pkt2 (mkSlot 1000000)

def c8eps : ℚ := 1/1000000000

def c8wire : WireState := { mkWire c8lpg false with hasOut := true, now := 3/2 + c8eps }

def c6lpg : LossPeriodGenerator := mkLossPeriodGenerator (fun _ => 7) (fun _ => 100)

def c6pA : WPacket := ⟨1, 0, 0, 0⟩

def c6pB : WPacket := ⟨2, 1, 0, 0⟩

def c6start : WireState := mkWire c6lpg true

def c6mid : WireState := { wirePut c6pB (wirePut c6pA c6start) with now := 2 }

def c6stop : WireState :=
  { store := [], packets_rec := 2, packets_dropped := 3, lpg := c6lpg,
    now := 2 + 3/2, lossDistNone := true, hasOut := false, delivered := [] }

def c9lpg : LossPeriodGenerator := mkLossPeriodGenerator (fun _ => 7) (fun _ => 100)

def c9pkt : WPacket := ⟨1, 0, 0, 3/2⟩

def c9start : WireState := mkWire c9lpg false

def c9mid : WireState := wirePut c9pkt { c9start with now := 3 }

theorem lpgStep_badDraws (s : LossPeriodGenerator) : (lpgStep s).badDraws = s.badDraws := rfl

theorem lpgStep_goodDraws (s : LossPeriodGenerator) : (lpgStep s).goodDraws = s.goodDraws := rfl

theorem lpgAdvance_badDraws (fuel : ℕ) (s : LossPeriodGenerator) (ts : ℚ) :
    (lpgAdvance fuel s ts).badDraws = s.badDraws := by
  induction fuel generalizing s with
  | zero => rfl
  | succ n ih =>
    unfold lpgAdvance
    split
    · rw [ih, lpgStep_badDraws]
    · rfl

theorem lpgAdvance_goodDraws (fuel : ℕ) (s : LossPeriodGenerator) (ts : ℚ) :
    (lpgAdvance fuel s ts).goodDraws = s.goodDraws := by
  induction fuel generalizing s with
  | zero => rfl
  | succ n ih =>
    unfold lpgAdvance
    split
    · rw [ih, lpgStep_goodDraws]
    · rfl

theorem lpgStep_good_high_le (s : LossPeriodGenerator)
    (hb : 0 ≤ s.badDraws s.bIdx) (hg : 0 ≤ s.goodDraws s.gIdx) :
    s.good_high ≤ (lpgStep s).good_high := by
  simp only [lpgStep]
  linarith

theorem lpgAdvance_good_high_le (fuel : ℕ) (s : LossPeriodGenerator) (ts : ℚ)
    (hb : ∀ n, 0 ≤ s.badDraws n) (hg : ∀ n, 0 ≤ s.goodDraws n) :
    s.good_high ≤ (lpgAdvance fuel s ts).good_high := by
  induction fuel generalizing s with
  | zero => exact le_refl _
  | succ n ih =>
    unfold lpgAdvance
    split
    · refine le_trans (lpgStep_good_high_le s (hb _) (hg _)) (ih (lpgStep s) ?_ ?_)
      · rw [lpgStep_badDraws]; exact hb
      · rw [lpgStep_goodDraws]; exact hg
    · exact le_refl _

theorem lpgTrace_head (fuel : ℕ) (s : LossPeriodGenerator) (cs : List (ℚ × ℚ)) :
    (lpgTrace fuel s cs).head? = some s.good_high := by
  cases cs <;> rfl

theorem lpgTrace_chain (fuel : ℕ) (cs : List (ℚ × ℚ)) (s : LossPeriodGenerator)
    (hb : ∀ n, 0 ≤ s.badDraws n) (hg : ∀ n, 0 ≤ s.goodDraws n) :
    List.Chain' (· ≤ ·) (lpgTrace fuel s cs) := by
  induction cs generalizing s with
  | nil => simp [lpgTrace]
  | cons c cs ih =>
    rw [lpgTrace, List.chain'_cons']
    constructor
    · intro b hb'
      rw [lpgTrace_head] at hb'
      cases hb'
      exact lpgAdvance_good_high_le fuel s c.1 hb hg
    · refine ih _ ?_ ?_
      · rw [is_good_period, lpgAdvance_badDraws]; exact hb
      · rw [is_good_period, lpgAdvance_goodDraws]; exact hg

/-- Claim C2: for every call `classify(enqueue_time, transmission_start_time)`,
after advancing the good-period bounds while `enqueue_time >= good_high`
(the hypothesis states that the advance loop has terminated within the given
fuel, as the Python `while` loop does for the almost-surely positive
exponential draws), the result is Good if and only if both `enqueue_time`
and `transmission_start_time` lie within the half-open interval
`[good_low, good_high)` of the advanced generator; in every other case the
result is Bad. -/
theorem lpg_classify_good_iff (fuel : ℕ) (s : LossPeriodGenerator) (ts bt : ℚ)
    (hterm : ts < (lpgAdvance fuel s ts).good_high) :
    ((is_good_period fuel s ts bt).2 = true ↔
      ((lpgAdvance fuel s ts).good_low ≤ ts ∧ ts < (lpgAdvance fuel s ts).good_high ∧
       (lpgAdvance fuel s ts).good_low ≤ bt ∧ bt < (lpgAdvance fuel s ts).good_high)) := by
  simp [is_good_period]

theorem lpg_classify_good_iff_witness :
    ((is_good_period 1 (mkLossPeriodGenerator (fun _ => 5) (fun _ => 10)) 3 12).2 = true ↔
      ((lpgAdvance 1 (mkLossPeriodGenerator (fun _ => 5) (fun _ => 10)) 3).good_low ≤ 3 ∧
       3 < (lpgAdvance 1 (mkLossPeriodGenerator (fun _ => 5) (fun _ => 10)) 3).good_high ∧
       (lpgAdvance 1 (mkLossPeriodGenerator (fun _ => 5) (fun _ => 10)) 3).good_low ≤ 12 ∧
       12 < (lpgAdvance 1 (mkLossPeriodGenerator (fun _ => 5) (fun _ => 10)) 3).good_high)) :=
  lpg_classify_good_iff 1 (mkLossPeriodGenerator (fun _ => 5) (fun _ => 10)) 3 12
    (by norm_num [lpgAdvance, mkLossPeriodGenerator])

/-- Claim C5: the Loss Period Generator's sequence of `good_high` values is
non-decreasing across every sequence of classify calls (given that the
exponential draws are nonnegative, as `numpy`'s are), and for a fixed pair
of draw streams (the streams are the pure image of the seeds) and a fixed
call sequence the produced boundary sequence is identical across runs. -/
theorem lpg_good_high_monotone_deterministic (fuel : ℕ) (bd gd bd' gd' : ℕ → ℚ)
    (calls : List (ℚ × ℚ))
    (hb : ∀ n, 0 ≤ bd n) (hg : ∀ n, 0 ≤ gd n)
    (hbd : ∀ n, bd n = bd' n) (hgd : ∀ n, gd n = gd' n) :
    List.Chain' (· ≤ ·) (lpgTrace fuel (mkLossPeriodGenerator bd gd) calls) ∧
    lpgTrace fuel (mkLossPeriodGenerator bd gd) calls
      = lpgTrace fuel (mkLossPeriodGenerator bd' gd') calls := by
  constructor
  · exact lpgTrace_chain fuel calls (mkLossPeriodGenerator bd gd) hb hg
  · rw [funext hbd, funext hgd]

theorem lpg_good_high_monotone_deterministic_witness :
    List.Chain' (· ≤ ·)
      (lpgTrace 1 (mkLossPeriodGenerator (fun _ => 5) (fun _ => 10)) [(3, 3), (20, 20)]) ∧
    lpgTrace 1 (mkLossPeriodGenerator (fun _ => 5) (fun _ => 10)) [(3, 3), (20, 20)]
      = lpgTrace 1 (mkLossPeriodGenerator (fun _ => 5) (fun _ => 10)) [(3, 3), (20, 20)] :=
  lpg_good_high_monotone_deterministic 1 (fun _ => 5) (fun _ => 10) (fun _ => 5) (fun _ => 10)
    [(3, 3), (20, 20)] (fun _ => by norm_num) (fun _ => by norm_num)
    (fun _ => rfl) (fun _ => rfl)

/-- Claim C7: a Slot Scheduler releases at most one packet per slot window:
a tick either emits nothing or exactly one packet; when the buffer is
non-empty the tick pops exactly the oldest buffered packet, stamps its
`begin_transmission` with the current virtual time, and hands it on (after
the fixed 1.5 transmission wait of the code); a tick with an empty buffer
releases nothing and leaves the slot unchanged. -/
theorem slot_tick_at_most_one_release (now : ℚ) (s : SlotState) (h : 0 < s.rate) :
    (s.packets_in_slot = [] → slotTick now s = (s, none)) ∧
    (∀ p rest, s.packets_in_slot = p :: rest →
      slotTick now s =
        ({ s with packets_in_slot := rest },
         some ({ p with begin_transmission := now }, now + 3/2))) := by
  constructor
  · intro he
    simp [slotTick, he]
  · intro p rest hs
    simp [slotTick, hs, h]

theorem slot_tick_at_most_one_release_witness :
    slotTick (3/2) c7slot =
      ({ c7slot with packets_in_slot := [] },
       some ({ (⟨1, 0, 0, 0⟩ : WPacket) with begin_transmission := 3/2 }, 3/2 + 3/2)) :=
  (slot_tick_at_most_one_release (3/2) c7slot (by norm_num [c7slot, slotPut, mkSlot])).2
    ⟨1, 0, 0, 0⟩ [] rfl

/-- Claim C10: when the Wire is constructed with `loss_dist` left at its
default of `None`, the drop condition
`self.loss_dist is None or not ...is_good_period(...)` short-circuits to
true, so no resolution cycle ever delivers a packet downstream, and a
non-collided packet is dropped and counted as a bursty-period loss. -/
theorem wire_loss_dist_none_drops_all (fuel : ℕ) (delay : ℚ) (s : WireState)
    (h : s.lossDistNone = true) :
    (∀ s', wireRunStep fuel delay s = Except.ok s' → s'.delivered = s.delivered) ∧
    (∀ p rest, s.store = p :: rest →
      rest.filter (fun q => decide (q.current_time = p.current_time)) = [] →
      wireRunStep fuel delay s =
        Except.ok { s with store := rest, packets_dropped := s.packets_dropped + 1,
                           now := s.now + 3/2 }) := by
  constructor
  · intro s' hok
    cases hstore : s.store with
    | nil =>
      rw [wireRunStep, hstore] at hok
      exact absurd hok (by simp)
    | cons pk rest =>
      rw [wireRunStep, hstore] at hok
      simp only [h, if_true] at hok
      repeat' split at hok
      all_goals injection hok with h'
      all_goals subst h'
      all_goals rfl
  · intro p rest hstore hfil
    rw [wireRunStep, hstore]
    simp [hfil, h]

theorem wire_loss_dist_none_drops_all_witness :
    wireRunStep 1 0 c10state =
      Except.ok { c10state with store := [], packets_dropped := c10state.packets_dropped + 1,
                                now := c10state.now + 3/2 } :=
  (wire_loss_dist_none_drops_all 1 0 c10state rfl).2 ⟨1, 0, 5, 5⟩ [] rfl rfl

/-- Claim C1 counterexample: three pending packets share the same
transmission-start timestamp (and arrival timestamp), yet the resolution
cycle increases the drop counter by 2, not by the group size 3, and leaves
the third group member in the pending set instead of removing the whole
group. -/
theorem wire_collision_group_of_three_counterexample :
    wireRunStep 1 0 c1state =
      Except.ok { c1state with store := [c1p3], packets_dropped := 2 } ∧
    (2 : ℕ) ≠ 3 ∧ c1p3 ∈ [c1p3] := by
  refine ⟨?_, by decide, by simp⟩
  rw [c1state, wireRunStep]
  norm_num [c1p1, c1p2, c1p3]

/-- Claim C1 as amended: when the popped packet's group (packets sharing its
arrival timestamp) has size at least 2, the resolution cycle's collision
handling increments the drop counter by exactly 2 — regardless of the group
size — and removes exactly two packets from the pending set: the popped
packet and the head of the remaining pending queue (whether or not that head
belongs to the group).  When at least one packet remains pending after the
two removals, that is the cycle's entire effect (any further group members
stay pending); when the two removals empty the pending set (the two-packet
collision of the spec's headline scenario), the same cycle additionally
re-processes the popped packet exactly as a sole non-collided packet on top
of the 2 counted drops — the loss gate drops it again (3 drops in total) or
forwards the collided packet downstream (the C4 slip). -/
theorem wire_collision_drops_exactly_two (fuel : ℕ) (delay : ℚ) (s : WireState)
    (p : WPacket) (rest : List WPacket) (hstore : s.store = p :: rest)
    (hcol : rest.filter (fun q => decide (q.current_time = p.current_time)) ≠ []) :
    (rest.tail ≠ [] →
      wireRunStep fuel delay s =
        Except.ok { s with store := rest.tail,
                           packets_dropped := s.packets_dropped + 2 }) ∧
    (rest.tail = [] →
      wireRunStep fuel delay s =
        wireRunStep fuel delay
          { s with store := [p], packets_dropped := s.packets_dropped + 2 }) := by
  have hc : (rest.filter (fun q => decide (q.current_time = p.current_time))).isEmpty = false := by
    cases hf : rest.filter (fun q => decide (q.current_time = p.current_time)) with
    | nil => exact absurd hf hcol
    | cons a l => rfl
  constructor
  · intro hrem
    have hs1 : rest.tail.isEmpty = false := by
      cases hf : rest.tail with
      | nil => exact absurd hf hrem
      | cons a l => rfl
    rw [wireRunStep, hstore]
    simp [hc, hs1]
  · intro htail
    rw [wireRunStep, wireRunStep, hstore]
    simp [hc, htail]

theorem wire_collision_drops_exactly_two_witness :
    (wireRunStep 1 0 c1wstate =
      Except.ok { c1wstate with store := [(⟨2, 1, 8, 8⟩ : WPacket), ⟨3, 2, 9, 9⟩].tail,
                                packets_dropped := c1wstate.packets_dropped + 2 }) ∧
    (wireRunStep 1 0 c1pair =
      wireRunStep 1 0 { c1pair with store := [⟨1, 0, 8, 8⟩],
                                    packets_dropped := c1pair.packets_dropped + 2 }) :=
  ⟨(wire_collision_drops_exactly_two 1 0 c1wstate ⟨1, 0, 8, 8⟩ [⟨2, 1, 8, 8⟩, ⟨3, 2, 9, 9⟩]
      rfl (by norm_num)).1 (by norm_num),
   (wire_collision_drops_exactly_two 1 0 c1pair ⟨1, 0, 8, 8⟩ [⟨2, 1, 8, 8⟩]
      rfl (by norm_num)).2 rfl⟩

/-- Claim C3: every packet the wire hands downstream obeys the propagation
bound.  If a resolution cycle starting at clock `s.now` delivers the packet
`p` at instant `d`, then `d - p.current_time` is at least the drawn delay;
when the time already spent (`queued_time`, measured at `s.now + 3/2` after
the transmission wait) is less than the drawn delay the cycle suspends for
exactly the difference, and when the packet already waited at least the
drawn delay it is forwarded at `s.now + 3/2` with no additional delay. -/
theorem wire_delivery_delay_bound (fuel : ℕ) (delay : ℚ) (s s' : WireState)
    (p : WPacket) (d : ℚ)
    (hok : wireRunStep fuel delay s = Except.ok s')
    (hdel : s'.delivered = s.delivered ++ [(p, d)]) :
    delay ≤ d - p.current_time ∧
    (s.now + 3/2 - p.current_time < delay →
      d = s.now + 3/2 + (delay - (s.now + 3/2 - p.current_time))) ∧
    (delay ≤ s.now + 3/2 - p.current_time → d = s.now + 3/2) := by
  cases hstore : s.store with
  | nil =>
    rw [wireRunStep, hstore] at hok
    exact absurd hok (by simp)
  | cons pk rest =>
    rw [wireRunStep, hstore] at hok
    simp only [wireRunStep] at hok
    repeat' split at hok
    all_goals simp at hok
    all_goals subst hok
    all_goals simp at hdel
    all_goals obtain ⟨hp, hd⟩ := hdel
    all_goals subst hp
    all_goals exact ⟨by linarith, fun hq => by linarith, fun hq => by linarith⟩

theorem wire_delivery_delay_bound_witness :
    (2:ℚ) ≤ 2 - (⟨1, 0, 0, 0⟩ : WPacket).current_time ∧
    (c3state.now + 3/2 - (⟨1, 0, 0, 0⟩ : WPacket).current_time < 2 →
      (2:ℚ) = c3state.now + 3/2 +
        (2 - (c3state.now + 3/2 - (⟨1, 0, 0, 0⟩ : WPacket).current_time))) ∧
    ((2:ℚ) ≤ c3state.now + 3/2 - (⟨1, 0, 0, 0⟩ : WPacket).current_time →
      (2:ℚ) = c3state.now + 3/2) :=
  wire_delivery_delay_bound 1 2 c3state c3out ⟨1, 0, 0, 0⟩ 2
    (by
      rw [c3state, wireRunStep]
      norm_num [c3out, c3lpg, is_good_period, lpgAdvance, mkLossPeriodGenerator])
    (by norm_num [c3out, c3state])

/-- Claim C4 is violated by the code: two packets share the arrival and
transmission-start timestamps and are counted as a collision
(`packets_dropped` increases by 2), yet because the second `store.get()`
empties the store, the condition
`len(colliding_packets) == 0 or len(self.store.items) == 0` (wire.py line
104) also routes the popped packet into the loss gate, which here finds a
good period and forwards the collided packet downstream.  The packet hence
reaches two terminal states in one cycle, contradicting the inline comment
"if no collision, check for good or bad period" and the specified state
machine. -/
theorem wire_collided_packet_also_delivered :
    wireRunStep 1 (1/10) c4state = Except.ok c4out ∧
    c4out.packets_dropped = c4state.packets_dropped + 2 ∧
    c4out.delivered = [(⟨1, 0, 3, 1⟩, 4 + 3/2)] := by
  refine ⟨?_, by norm_num [c4out, c4state], rfl⟩
  rw [c4state, wireRunStep]
  norm_num [c4out, c4lpg, is_good_period, lpgAdvance, mkLossPeriodGenerator]

/-- Claim C8 is violated by the code: in the scenario with slot duration 1.5
and one packet buffered in each of the two slots at time 0, the first slot
tick (t = 1.5) does stamp both packets with `begin_transmission = 1.5`, but
each slot hands its packet to the wire only at t = 3.0 (after the further
1.5 transmission wait).  The wire's resolution loop wakes first at
t = 1.5 + 1e-9 (`timeout(0)` then `timeout(1.5 + epsilon)`), strictly before
any packet has arrived, and `self.store.items[0]` on the empty store raises
IndexError — the simulation crashes before any collision accounting, so the
claimed final counters are never produced.  (The commented-out emptiness
guard at wire.py lines 82-83 marks the intended behaviour.) -/
theorem wire_first_resolution_empty_store_crash :
    (slotTick (3/2) c8slotA).2 = some ({ c8pkt1 with begin_transmission := 3/2 }, 3/2 + 3/2) ∧
    (slotTick (3/2) c8slotB).2 = some ({ c8pkt2 with begin_transmission := 3/2 }, 3/2 + 3/2) ∧
    c8wire.now < 3/2 + 3/2 ∧
    storeAt
      [(3/2 + 3/2, { c8pkt1 with begin_transmission := 3/2, current_time := 3/2 + 3/2 }),
       (3/2 + 3/2, { c8pkt2 with begin_transmission := 3/2, current_time := 3/2 + 3/2 })]
      c8wire.now = [] ∧
    c8wire.store = [] ∧
    wireRunStep 1 (1/10) c8wire = Except.error WireError.indexError := by
  refine ⟨?_, ?_, ?_, ?_, rfl, rfl⟩
  · simp [slotTick, c8slotA, slotPut, mkSlot]
  · simp [slotTick, c8slotB, slotPut, mkSlot]
  · norm_num [c8wire, c8eps, mkWire]
  · norm_num [storeAt, c8wire, c8eps, mkWire, List.filter]

/-- Claim C6 counterexample: from a freshly constructed wire (default
`loss_dist=None`), receive two packets at the same instant and run one
resolution cycle: the collision path counts 2 drops and empties the store,
then the line-104 condition re-routes the popped packet into the loss path,
which drops it again — 3 drops for 2 received packets, so the reported
`loss_rate` is 150%, outside the claimed [0%, 100%] interval. -/
theorem wire_loss_rate_exceeds_100_counterexample :
    WireReach c6start c6stop ∧ loss_rate c6stop = 150 ∧ ¬ loss_rate c6stop ≤ 100 := by
  refine ⟨?_, by norm_num [loss_rate, c6stop], by norm_num [loss_rate, c6stop]⟩
  have h1 : WireEvolve c6start (wirePut c6pA c6start) := WireEvolve.putPacket c6start c6pA
  have h2 : WireEvolve (wirePut c6pA c6start) (wirePut c6pB (wirePut c6pA c6start)) :=
    WireEvolve.putPacket _ c6pB
  have h3 : WireEvolve (wirePut c6pB (wirePut c6pA c6start)) c6mid :=
    WireEvolve.advanceTime (wirePut c6pB (wirePut c6pA c6start)) 2
      (by norm_num [wirePut, c6start, mkWire])
  have h4 : WireEvolve c6mid c6stop := by
    refine WireEvolve.resolve c6mid c6stop 1 0 le_rfl ?_
    rw [c6mid, wireRunStep]
    norm_num [wirePut, c6start, c6stop, mkWire, c6pA, c6pB]
  exact WireReach.step (WireReach.step (WireReach.step (WireReach.step WireReach.refl h1) h2) h3) h4

/-- Claim C6 as amended: `loss_rate` is always nonnegative, equals 0
whenever `packets_rec` is 0, and its computation is total (the zero-received
case is guarded, never a division fault); the upper bound of 100% claimed by
the specification does not hold (see the counterexample: a collided packet
can be counted again by the loss gate, giving 150%). -/
theorem loss_rate_nonneg_and_zero_when_unreceived (s : WireState) :
    0 ≤ loss_rate s ∧ (s.packets_rec = 0 → loss_rate s = 0) := by
  constructor
  · rw [loss_rate]
    split
    · positivity
    · exact le_refl 0
  · intro h
    rw [loss_rate, if_neg (by omega)]

theorem loss_rate_nonneg_and_zero_when_unreceived_witness :
    loss_rate (mkWire c6lpg true) = 0 :=
  (loss_rate_nonneg_and_zero_when_unreceived (mkWire c6lpg true)).2 rfl

/-- Claim C9 counterexample: `Wire.__init__` performs no validation — it
always succeeds and always leaves the downstream target unset
(`out = None`).  The missing downstream target does not fail at setup: the
wire accepts a packet and only the resolution cycle that tries to forward it
fails (`self.out.put`, an AttributeError), at a point where the simulation
clock has already advanced past 0. -/
theorem wire_missing_out_faults_after_clock_advances :
    (mkWire c9lpg false).hasOut = false ∧
    WireReach c9start c9mid ∧
    0 < c9mid.now ∧
    wireRunStep 1 0 c9mid = Except.error WireError.attributeError := by
  refine ⟨rfl, ?_, by norm_num [c9mid, wirePut, c9start, mkWire], ?_⟩
  · exact WireReach.step
      (WireReach.step WireReach.refl
        (WireEvolve.advanceTime c9start 3 (by norm_num [c9start, mkWire])))
      (WireEvolve.putPacket _ c9pkt)
  · rw [c9mid, wireRunStep]
    norm_num [wirePut, c9start, mkWire, c9pkt, c9lpg, is_good_period, lpgAdvance,
      mkLossPeriodGenerator]

/-- Claim C9 as amended: construction performs no configuration validation
and never fails: a Wire is always created with the downstream target unset
and the clock at 0 (a missing target is only detected when the first packet
is forwarded, after the clock has advanced — see the counterexample), and a
Slot stores even a non-positive rate silently; its ticks then still release
packets, merely skipping the transmission-start stamping. -/
theorem constructors_never_validate (lpg : LossPeriodGenerator) (b : Bool) (r : ℚ)
    (now : ℚ) (p : WPacket) (rest : List WPacket) (hr : r ≤ 0) :
    (mkWire lpg b).hasOut = false ∧ (mkWire lpg b).now = 0 ∧
    (mkSlot r).packets_in_slot = [] ∧
    slotTick now { packets_in_slot := p :: rest, rate := r } =
      ({ packets_in_slot := rest, rate := r }, some (p, now)) := by
  have hnr : ¬ (0 : ℚ) < r := not_lt.mpr hr
  refine ⟨rfl, rfl, rfl, ?_⟩
  simp [slotTick, hnr]

theorem constructors_never_validate_witness :
    (mkWire (mkLossPeriodGenerator (fun _ => 7) (fun _ => 100)) true).hasOut = false ∧
    (mkWire (mkLossPeriodGenerator (fun _ => 7) (fun _ => 100)) true).now = 0 ∧
    (mkSlot 0).packets_in_slot = [] ∧
    slotTick 5 { packets_in_slot := [⟨1, 0, 0, 0⟩], rate := 0 } =
      ({ packets_in_slot := [], rate := 0 }, some (⟨1, 0, 0, 0⟩, 5)) :=
  constructors_never_validate (mkLossPeriodGenerator (fun _ => 7) (fun _ => 100)) true 0 5
    ⟨1, 0, 0, 0⟩ [] (by norm_num)
